import Mathlib

/-!
Shallow embedding of the Cults3D Home Assistant integration, centred on the
polling coordinator (custom_components/cults3d/coordinator.py) together with
the credential-validation helper of custom_components/cults3d/config_flow.py.

Modelling conventions, shared by every definition below:

* JSON trees are modelled by the inductive type `Json`.  Python numbers
  (int and float alike) are modelled by rationals, so arithmetic is exact.
* Python `datetime` values are modelled as integer Unix timestamps measured
  in seconds; `timedelta(days=30)` is the constant 2592000.  Every timestamp
  the upstream API hands to this integration carries an explicit UTC offset,
  so datetimes are mutually comparable absolute instants.
* `datetime.fromisoformat` is a Python standard-library routine, not code of
  this repository; it is abstracted as a parameter `iso : String → Option Int`
  where `none` models the ValueError that the source catches.
* Python exception flow is modelled with `Except` and `Option`: the
  coordinator raises exactly two exception kinds of its own,
  ConfigEntryAuthFailed and UpdateFailed, modelled by `CycleError`.
* Dictionary access (`d.get(k)`, `d.get(k, default)`) is modelled by an
  association-list lookup.  GraphQL responses consumed by the code are
  objects whose relevant fields are objects, lists, strings or numbers;
  values outside that space (for example a number where the schema promises
  an object) would raise AttributeError or TypeError in Python, and the
  definitions note at each site how the enclosing handler absorbs that.
-/

namespace Cults3D

/-- A JSON value, as decoded by response.json(). -/
inductive Json where
  | null : Json
  | bool (b : Bool) : Json
  | num (q : ℚ) : Json
  | str (s : String) : Json
  | arr (xs : List Json) : Json
  | obj (fields : List (String × Json)) : Json

/-- First-match association-list lookup, modelling Python dict access
(dict keys are unique, so first match is the only match). -/
def alistFind {α : Type} : List (String × α) → String → Option α
  | [], _ => none
  | (k, v) :: rest, key => if k = key then some v else alistFind rest key

/-- Models d.get(k) on a Python dict: `none` when the key is absent.
On a non-object the call sites in the source would raise AttributeError;
the sites that may receive a non-object document how that is absorbed. -/
def Json.get : Json → String → Option Json
  | .obj fs, k => alistFind fs k
  | _, _ => none

/-- Python truthiness of a JSON-decoded value. -/
def Json.truthy : Json → Bool
  | .null => false
  | .bool b => b
  | .num q => decide (q ≠ 0)
  | .str s => decide (s ≠ "")
  | .arr xs => !xs.isEmpty
  | .obj fs => !fs.isEmpty

/-- Whether a JSON value is an object. -/
def Json.isObjB : Json → Bool
  | .obj _ => true
  | _ => false

/-- Models the idiom `d.get(k, 0) or 0` applied to a numeric field: a missing
key, a JSON null and a zero all give 0, a number gives itself.  Non-numeric
truthy values lie outside the modelled response space for count fields. -/
def pyOr0 (v : Option Json) : ℚ :=
  match v with
  | some (Json.num q) => q
  | _ => 0

/-- Models `d.get(k)` yielding a Python string value: absent keys, nulls and
non-strings give `none` (string fields of the schema are strings or null). -/
def getStrOpt (j : Json) (k : String) : Option String :=
  match j.get k with
  | some (Json.str s) => some s
  | _ => none

/-- Python str.startswith. -/
def isPrefixList : List Char → List Char → Bool
  | [], _ => true
  | _ :: _, [] => false
  | a :: as, b :: bs => a = b && isPrefixList as bs

/-- Models url.startswith(pre). -/
def pyStartsWith (s pre : String) : Bool :=
  isPrefixList pre.data s.data

/-- The characters Python str.strip() removes: exactly the code points for
which str.isspace() holds — the ASCII whitespace characters 09-0D and 20,
the information separators 1C-1F, next line 85, no-break space A0, ogham
space 1680, the en-quad..hair-space range 2000-200A, the line and paragraph
separators 2028 and 2029, narrow no-break space 202F, medium mathematical
space 205F and ideographic space 3000. -/
def isPyWs (c : Char) : Bool :=
  c = ' ' || c = '\t' || c = '\n' || c = '\r' || c = '\x0b' || c = '\x0c' ||
  (0x1c ≤ c.toNat && c.toNat ≤ 0x1f) || c.toNat = 0x85 || c.toNat = 0xa0 ||
  c.toNat = 0x1680 || (0x2000 ≤ c.toNat && c.toNat ≤ 0x200a) ||
  c.toNat = 0x2028 || c.toNat = 0x2029 || c.toNat = 0x202f ||
  c.toNat = 0x205f || c.toNat = 0x3000

/-- Models str.strip() on the character list. -/
def pyStripList (l : List Char) : List Char :=
  ((l.dropWhile isPyWs).reverse.dropWhile isPyWs).reverse

/-- Models str.strip(). -/
def pyStrip (s : String) : String :=
  ⟨pyStripList s.data⟩

/-- The replacement text used by publishedAt.replace("Z", "+00:00"). -/
def plusZeros : List Char := "+00:00".data

/-- Models s.replace("Z", "+00:00") on the character list: the pattern is a
single character, so Python replace-all substitutes every Z. -/
def pyReplaceZList : List Char → List Char
  | [] => []
  | c :: rest =>
      if c = 'Z' then plusZeros ++ pyReplaceZList rest
      else c :: pyReplaceZList rest

/-- Models s.replace("Z", "+00:00"). -/
def pyReplaceZ (s : String) : String :=
  ⟨pyReplaceZList s.data⟩

/-!  Slug extraction (extract_slug_from_url, coordinator.py lines 113-124).

The two regular expressions of the source are deterministic once their
greedy quantifiers are analysed: each quantified class is followed either by
a literal character excluded from the class or by the end of the pattern, so
backtracking can never produce a different match.  The searches below try
every start position left to right, exactly as re.search does. -/

/-- Word characters for the regex class backslash-w.  Python matches the
Unicode alphanumerics as well; this model keeps the ASCII portion, under
which every input the integration actually handles behaves identically.
The idempotence development below never relies on which characters count as
word characters: it only uses the fact that a captured slug excludes the
slash, so the host literal of both patterns cannot reoccur inside it. -/
def isWordChar (c : Char) : Bool := c.isAlphanum || c = '_'

/-- Characters allowed in the regex class excluding slash. -/
def notSlash (c : Char) : Bool := c ≠ '/'

/-- Characters allowed in the capture class excluding slash, question mark
and hash. -/
def slugChar (c : Char) : Bool := c ≠ '/' && c ≠ '?' && c ≠ '#'

/-- Match a literal character sequence at the head of the input, returning
the remainder. -/
def dropLit : List Char → List Char → Option (List Char)
  | [], l => some l
  | _ :: _, [] => none
  | p :: ps, c :: cs => if c = p then dropLit ps cs else none

/-- The literal that opens both regular expressions. -/
def hostChars : List Char := "cults3d.com/".data

/-- The literal /3d-model/ of the first regular expression. -/
def modelChars : List Char := "/3d-model/".data

/-- Attempt the first pattern at one start position: after the host literal,
a word run, the /3d-model/ literal, a non-slash run, a slash, then the
captured slug run. -/
def matchLong (l : List Char) : Option (List Char) :=
  match dropLit hostChars l with
  | none => none
  | some r1 =>
      let w := r1.takeWhile isWordChar
      let r2 := r1.dropWhile isWordChar
      if w.isEmpty then none else
      match dropLit modelChars r2 with
      | none => none
      | some r3 =>
          let a := r3.takeWhile notSlash
          let r4 := r3.dropWhile notSlash
          if a.isEmpty then none else
          match r4 with
          | c0 :: r5 =>
              if c0 = '/' then
                let g := r5.takeWhile slugChar
                if g.isEmpty then none else some g
              else none
          | [] => none

/-- Attempt the second pattern at one start position: after the host
literal, a word run, a slash, then the captured slug run anchored at the end
of the string. -/
def matchShort (l : List Char) : Option (List Char) :=
  match dropLit hostChars l with
  | none => none
  | some r1 =>
      let w := r1.takeWhile isWordChar
      let r2 := r1.dropWhile isWordChar
      if w.isEmpty then none else
      match r2 with
      | c0 :: r3 =>
          if c0 = '/' then
            let g := r3.takeWhile slugChar
            let rest := r3.dropWhile slugChar
            if g.isEmpty || !rest.isEmpty then none else some g
          else none
      | [] => none

/-- re.search: try the matcher at every start position, left to right. -/
def reSearch (f : List Char → Option (List Char)) : List Char → Option (List Char)
  | [] => f []
  | c :: rest =>
      match f (c :: rest) with
      | some g => some g
      | none => reSearch f rest

/-- extract_slug_from_url (coordinator.py lines 113-124): first the long
product-path pattern, then the short pattern, else the stripped input. -/
def extract_slug_from_url (s : String) : String :=
  match reSearch matchLong s.data with
  | some g => ⟨g⟩
  | none =>
      match reSearch matchShort s.data with
      | some g => ⟨g⟩
      | none => pyStrip s

/-!  Data classes (coordinator.py lines 127-188).  Counters are rationals
(Python ints embed); datetimes are integer timestamps. -/

/-- CreationData (coordinator.py lines 127-137). -/
structure CreationData where
  name : Option String := none
  url : Option String := none
  image_url : Option String := none
  views_count : ℚ := 0
  downloads_count : ℚ := 0
  likes_count : ℚ := 0
  published_at : Option Int := none
deriving DecidableEq

/-- TrackedCreationData (coordinator.py lines 140-159). -/
structure TrackedCreationData where
  slug : String := ""
  name : Option String := none
  url : Option String := none
  image_url : Option String := none
  creator : Option String := none
  published_at : Option Int := none
  views_count : ℚ := 0
  downloads_count : ℚ := 0
  likes_count : ℚ := 0
  window_start : Option Int := none
  window_end : Option Int := none
  is_within_30_days : Bool := false
deriving DecidableEq

/-- Cults3DData (coordinator.py lines 165-188).  The username is an Option
because user_data.get("nick", self._username) yields Python None when the
nick field is present but null.  The tracked dict is an association list in
insertion order. -/
structure Cults3DData where
  username : Option String := some ""
  followers_count : ℚ := 0
  following_count : ℚ := 0
  creations_count : ℚ := 0
  total_sales_amount : ℚ := 0
  total_sales_count : Nat := 0
  monthly_sales_amount : ℚ := 0
  monthly_sales_count : Nat := 0
  sales_data_available : Bool := false
  latest_creation : CreationData := {}
  top_downloaded : CreationData := {}
  tracked_creations : List (String × TrackedCreationData) := []
deriving DecidableEq

/-- Python dict assignment d[k] = v on an association list: overwrite in
place when the key exists, else append. -/
def dictInsert {α : Type} : List (String × α) → String → α → List (String × α)
  | [], k, v => [(k, v)]
  | (k', v') :: rest, k, v =>
      if k' = k then (k', v) :: rest else (k', v') :: dictInsert rest k v

/-!  Parsing helpers shared by _parse_creation and _parse_single_creation. -/

/-- The url computation shared verbatim by both parsers
(coordinator.py lines 197-199 and 228-230):
url = creation.get("shortUrl", ""); a truthy url not starting with http is
prefixed with the absolute host; finally `url or None`. -/
def urlOfCreation (c : Json) : Option String :=
  match c.get "shortUrl" with
  | some (Json.str u) =>
      let u2 := if u ≠ "" && !(pyStartsWith u "http")
        then "https://cults3d.com" ++ u else u
      if u2 = "" then none else some u2
  | _ => none

/-- The publishedAt string as tested by `if pub_str:`  — absent, null and
empty strings are skipped.  A truthy non-string would raise AttributeError
at .replace in Python; such values are outside the modelled response space
(the schema type of publishedAt is a string). -/
def pubStrOf (c : Json) : Option String :=
  match c.get "publishedAt" with
  | some (Json.str s) => if s = "" then none else some s
  | _ => none

/-- The publishedAt parse: replace Z with +00:00 then fromisoformat, with
ValueError giving `none` (the source catches it and keeps the default). -/
def parse_pub (iso : String → Option Int) (c : Json) : Option Int :=
  match pubStrOf c with
  | none => none
  | some s => iso (pyReplaceZ s)

/-- The creator extraction of _parse_single_creation (lines 251-252):
creator_data = creation_data.get("creator", {}) and then
creator_data.get("nick") if creator_data else None. -/
def creatorOf (c : Json) : Option String :=
  match c.get "creator" with
  | some cr => if cr.truthy then getStrOpt cr "nick" else none
  | none => none

/-- _parse_creation (coordinator.py lines 191-220).  The argument is the
latestCreation value: a falsy value (Python None, a null, an empty list)
gives the default CreationData; a truthy list is parsed from its head.  A
truthy non-list would raise at creation_list[0]; the only caller wraps the
call in a blanket handler yielding the default pair, and such values are
outside the modelled response space anyway. -/
def parse_creation (iso : String → Option Int) (cl : Option Json) : CreationData :=
  match cl with
  | some (Json.arr (c :: _)) =>
      { name := getStrOpt c "name"
        url := urlOfCreation c
        image_url := getStrOpt c "illustrationImageUrl"
        views_count := pyOr0 (c.get "viewsCount")
        downloads_count := pyOr0 (c.get "downloadsCount")
        likes_count := pyOr0 (c.get "likesCount")
        published_at := parse_pub iso c }
  | _ => {}

/-- _parse_single_creation (coordinator.py lines 223-267).  `now` is the
value of datetime.now(timezone.utc) taken during the cycle.  A falsy
creation value gives the slug-only default.  When publishedAt parses, the
window is derived: start = published_at, end = published_at + 30 days, and
the flag is now ≤ end. -/
def parse_single_creation (iso : String → Option Int) (now : Int)
    (cd : Option Json) (slug : String) : TrackedCreationData :=
  match cd with
  | none => { slug := slug }
  | some c =>
      if !c.truthy then { slug := slug }
      else
        let pub := parse_pub iso c
        { slug := slug
          name := getStrOpt c "name"
          url := urlOfCreation c
          image_url := getStrOpt c "illustrationImageUrl"
          creator := creatorOf c
          published_at := pub
          views_count := pyOr0 (c.get "viewsCount")
          downloads_count := pyOr0 (c.get "downloadsCount")
          likes_count := pyOr0 (c.get "likesCount")
          window_start := pub
          window_end := pub.map (· + 2592000)
          is_within_30_days :=
            match pub with
            | some t => decide (now ≤ t + 2592000)
            | none => false }

/-!  The API client and the refresh cycle. -/

/-- The two exception kinds the coordinator raises: ConfigEntryAuthFailed
and UpdateFailed, each carrying its message. -/
inductive CycleError where
  | authFailed (msg : String) : CycleError
  | updateFailed (msg : String) : CycleError
deriving DecidableEq

/-- The observable outcome of one HTTP POST to the GraphQL endpoint:
either a response with a status code and a decoded JSON body, an aiohttp
ClientResponseError carrying a status, or a network-level ClientError. -/
inductive HttpResponse where
  | status (code : Nat) (body : Json) : HttpResponse
  | respError (code : Nat) (msg : String) : HttpResponse
  | connError (msg : String) : HttpResponse

/-- Models the test `"errors" in data and data["errors"]`. -/
def hasErrors (j : Json) : Bool :=
  match j.get "errors" with
  | some e => e.truthy
  | none => false

/-- One error message, err.get("message", "Unknown error").  A present but
null or non-string message would make the later join raise in Python; such
values are outside the modelled response space. -/
def errMsg (e : Json) : String :=
  match e.get "message" with
  | some (Json.str s) => s
  | _ => "Unknown error"

/-- The collected error messages of a GraphQL error list. -/
def errMessages (j : Json) : List String :=
  match j.get "errors" with
  | some (Json.arr es) => es.map errMsg
  | _ => []

/-- The dict returned on swallowed failures:
a null data field plus a single message. -/
def errorEnvelope (msg : String) : Json :=
  Json.obj [("data", Json.null),
            ("errors", Json.arr [Json.obj [("message", Json.str msg)]])]

/-- _async_execute_query (coordinator.py lines 299-361).  HTTP 401 and 403
raise ConfigEntryAuthFailed before the raise_on_error flag is consulted;
other non-200 statuses and GraphQL error lists raise UpdateFailed only when
raise_on_error holds, else the errored envelope (or the body) is returned.
ClientResponseError with status 401 or 403 also raises auth failure;
other client errors follow the raise_on_error rule. -/
def async_execute_query (raise_on_error : Bool) (resp : HttpResponse) :
    Except CycleError Json :=
  match resp with
  | .status code body =>
      if code = 401 then
        .error (.authFailed "Invalid username or API key")
      else if code = 403 then
        .error (.authFailed "Access forbidden - check your API key permissions")
      else if code ≠ 200 then
        if raise_on_error then
          .error (.updateFailed ("API request failed with status " ++ toString code))
        else .ok (errorEnvelope ("HTTP " ++ toString code))
      else
        if hasErrors body && raise_on_error then
          .error (.updateFailed
            ("GraphQL error: " ++ String.intercalate "; " (errMessages body)))
        else .ok body
  | .respError code msg =>
      if code = 401 || code = 403 then
        .error (.authFailed "Authentication failed - check your credentials")
      else if raise_on_error then
        .error (.updateFailed ("API request failed: " ++ msg))
      else .ok (errorEnvelope msg)
  | .connError msg =>
      if raise_on_error then
        .error (.updateFailed ("Connection error: " ++ msg))
      else .ok (errorEnvelope msg)

/-- Models result.get("data", {}): the data value when the key is present
(null included), else the empty dict default. -/
def dataOf (j : Json) : Json :=
  match j.get "data" with
  | some d => d
  | none => Json.obj []

/-- The Python value of data.get("user"): Lean `none` models Python None,
which arises both from an absent user key and from a null value. -/
def userVal (d : Json) : Option Json :=
  match d.get "user" with
  | some Json.null => none
  | some v => some v
  | none => none

/-- Whether data.get("user") yields Python None. -/
def userNone (d : Json) : Bool := (userVal d).isNone

/-- The inputs of one refresh cycle: the response each query would receive,
the configured username, the cycle timestamp, and the abstracted
fromisoformat.  Responses are fixed per slug for the cycle. -/
structure CycleEnv where
  userResp : HttpResponse
  creationsResp : HttpResponse
  salesResp : HttpResponse
  trackedResp : String → HttpResponse
  username : String
  now : Int
  iso : String → Option Int

/-- async_validate_credentials (coordinator.py lines 363-379): strict query;
auth failure and update failure both give False; otherwise True exactly when
the user value is not Python None. -/
def async_validate_credentials (resp : HttpResponse) : Bool :=
  match async_execute_query true resp with
  | .error _ => false
  | .ok result => !(userNone (dataOf result))

/-- _validate_credentials (config_flow.py lines 34-54): a plain POST; any
non-200 status, GraphQL error list or raised exception gives False, else
True exactly when the user value is not Python None. -/
def validate_credentials_flow (resp : HttpResponse) : Bool :=
  match resp with
  | .status code body =>
      if code ≠ 200 then false
      else if hasErrors body then false
      else !(userNone (dataOf body))
  | _ => false

/-- _fetch_tracked_creation (coordinator.py lines 381-392): a strict query
whose UpdateFailed is caught locally, degrading to the slug-only default;
ConfigEntryAuthFailed is not caught and propagates. -/
def fetch_tracked_creation (env : CycleEnv) (slug : String) :
    Except CycleError TrackedCreationData :=
  match async_execute_query true (env.trackedResp slug) with
  | .error (.authFailed m) => .error (.authFailed m)
  | .error (.updateFailed _) => .ok { slug := slug }
  | .ok result =>
      .ok (parse_single_creation env.iso env.now
            ((dataOf result).get "creation") slug)

/-- The tracked-creations loop of _async_update_data (lines 510-514),
threading the dict being built; the first propagating auth failure aborts
the whole cycle. -/
def fetch_tracked_all (env : CycleEnv)
    (acc : List (String × TrackedCreationData)) :
    List String → Except CycleError (List (String × TrackedCreationData))
  | [] => .ok acc
  | slug :: rest =>
      match fetch_tracked_creation env slug with
      | .error e => .error e
      | .ok td => fetch_tracked_all env (dictInsert acc slug td) rest

/-- _fetch_creations_data (coordinator.py lines 450-478): non-strict query;
an auth failure raised by the client is caught by the blanket handler, as is
every other exception, giving the default pair; a GraphQL error list or a
falsy user gives the default pair; otherwise the single parsed creation is
used for both components. -/
def fetch_creations_data (env : CycleEnv) : CreationData × CreationData :=
  match async_execute_query false env.creationsResp with
  | .error _ => ({}, {})
  | .ok result =>
      if hasErrors result then ({}, {})
      else
        match (dataOf result).get "user" with
        | none => ({}, {})
        | some u =>
            if !u.truthy then ({}, {})
            else
              let latest := parse_creation env.iso (u.get "latestCreation")
              (latest, latest)

/-!  Sales fetch (_fetch_sales_data, coordinator.py lines 394-448).  The
whole body sits inside a blanket exception handler that returns the zeroed
tuple, so any mid-loop Python error discards the partial sums.  `none`
results of the Option-valued helpers below model exactly those uncaught
Python exceptions. -/

/-- The income of one sale record:
income_data = sale.get("income", {}) and then
float(income_data.get("value", 0) or 0) if income_data else 0.0.
A falsy income (absent, null, empty) contributes 0; a truthy income must be
an object whose truthy value is a number, anything else raises in Python
(`none` here). -/
def saleIncome (sale : Json) : Option ℚ :=
  match sale with
  | Json.obj _ =>
      match sale.get "income" with
      | none => some 0
      | some inc =>
          if !inc.truthy then some 0
          else
            match inc with
            | Json.obj _ =>
                match inc.get "value" with
                | none => some 0
                | some v =>
                    if !v.truthy then some 0
                    else
                      match v with
                      | Json.num q => some q
                      | _ => none
            | _ => none
  | _ => none

/-- Whether one sale record counts toward the monthly aggregates: a truthy
createdAt string is Z-normalised and parsed; a parse failure is caught and
the record is skipped; a parsed timestamp counts iff it is at least the
cutoff now - 30 days.  A truthy non-string createdAt raises AttributeError
in Python (`none` here). -/
def saleMonthly (iso : String → Option Int) (cutoff : Int) (sale : Json) :
    Option Bool :=
  match sale.get "createdAt" with
  | none => some false
  | some c =>
      if !c.truthy then some false
      else
        match c with
        | Json.str s =>
            match iso (pyReplaceZ s) with
            | none => some false
            | some t => some (decide (t ≥ cutoff))
        | _ => none

/-- The aggregation loop over the sale records, accumulating
(total amount, total count, monthly amount, monthly count); `none` models a
Python exception escaping the loop. -/
def salesLoop (iso : String → Option Int) (cutoff : Int) :
    List Json → ℚ × Nat × ℚ × Nat → Option (ℚ × Nat × ℚ × Nat)
  | [], acc => some acc
  | sale :: rest, (ta, tc, ma, mc) =>
      match saleIncome sale with
      | none => none
      | some v =>
          match saleMonthly iso cutoff sale with
          | none => none
          | some inWin =>
              salesLoop iso cutoff rest
                (ta + v, tc + 1,
                 if inWin then ma + v else ma,
                 if inWin then mc + 1 else mc)

/-- The shape cascade of _fetch_sales_data up to the loop: the query result
must be error-free, the myself value truthy, and the nested
salesBatch.results accesses must reach a list.  `none` is every path the
source maps to the zeroed tuple: a swallowed auth failure, a GraphQL error
list, a falsy myself, or a shape that raises into the blanket handler. -/
def salesResults (env : CycleEnv) : Option (List Json) :=
  match async_execute_query false env.salesResp with
  | .error _ => none
  | .ok result =>
      if hasErrors result then none
      else
        match dataOf result with
        | Json.obj dfs =>
            match alistFind dfs "myself" with
            | none => none
            | some m =>
                if !m.truthy then none
                else
                  match m with
                  | Json.obj _ =>
                      let sb := match m.get "salesBatch" with
                        | some x => x
                        | none => Json.obj []
                      match sb with
                      | Json.obj _ =>
                          let res := match sb.get "results" with
                            | some x => x
                            | none => Json.arr []
                          match res with
                          | Json.arr sales => some sales
                          | _ => none
                      | _ => none
                  | _ => none
        | _ => none

/-- _fetch_sales_data (coordinator.py lines 394-448), returning
(total_sales_amount, total_sales_count, monthly_sales_amount,
monthly_sales_count, sales_data_available). -/
def fetch_sales_data (env : CycleEnv) : ℚ × Nat × ℚ × Nat × Bool :=
  match salesResults env with
  | none => (0, 0, 0, 0, false)
  | some sales =>
      match salesLoop env.iso (env.now - 2592000) sales (0, 0, 0, 0) with
      | none => (0, 0, 0, 0, false)
      | some (ta, tc, ma, mc) => (ta, tc, ma, mc, true)

/-- user_data.get("nick", self._username): the configured username when the
key is absent, Python None when the value is null, else the string. -/
def nickOf (username : String) (u : Json) : Option String :=
  match u.get "nick" with
  | none => some username
  | some (Json.str s) => some s
  | some _ => none

/-- _async_update_data (coordinator.py lines 480-529): the strict profile
query gates the cycle; a Python-None user raises UpdateFailed naming the
user; the optional sub-fetches then run and the snapshot is assembled.  An
auth failure propagating from a tracked fetch aborts the cycle. -/
def async_update_data (env : CycleEnv) (slugs : List String) :
    Except CycleError Cults3DData :=
  match async_execute_query true env.userResp with
  | .error e => .error e
  | .ok result =>
      match userVal (dataOf result) with
      | none =>
          .error (.updateFailed ("User '" ++ env.username ++ "' not found"))
      | some u =>
          let pair := fetch_creations_data env
          let sales := fetch_sales_data env
          match fetch_tracked_all env [] slugs with
          | .error e => .error e
          | .ok tracked =>
              .ok { username := nickOf env.username u
                    followers_count := pyOr0 (u.get "followersCount")
                    following_count := pyOr0 (u.get "followeesCount")
                    creations_count := pyOr0 (u.get "creationsCount")
                    total_sales_amount := sales.1
                    total_sales_count := sales.2.1
                    monthly_sales_amount := sales.2.2.1
                    monthly_sales_count := sales.2.2.2.1
                    sales_data_available := sales.2.2.2.2
                    latest_creation := pair.1
                    top_downloaded := pair.2
                    tracked_creations := tracked }

/-- Whether one tracked-item fetch degrades to the slug-only default: a
swallowed UpdateFailed, or a success whose creation value is Python-falsy
(absent, null or empty). -/
def tracked_fetch_degraded (env : CycleEnv) (s : String) : Bool :=
  match async_execute_query true (env.trackedResp s) with
  | .error (.updateFailed _) => true
  | .error (.authFailed _) => false
  | .ok result =>
      match (dataOf result).get "creation" with
      | none => true
      | some c => !c.truthy

/-- The income a sale actually contributes (0 when degenerate). -/
def saleIncomeD (s : Json) : ℚ := (saleIncome s).getD 0

/-- Whether a sale counts toward the monthly aggregates. -/
def saleMonthlyB (iso : String → Option Int) (cutoff : Int) (s : Json) : Bool :=
  (saleMonthly iso cutoff s).getD false

/-- A sale record whose processing raises no Python exception. -/
def wfSale (iso : String → Option Int) (cutoff : Int) (s : Json) : Bool :=
  (saleIncome s).isSome && (saleMonthly iso cutoff s).isSome

/-- Whether an Except value is a success. -/
def isOkE {ε α : Type} : Except ε α → Bool
  | .ok _ => true
  | .error _ => false

/-!  Fixture values used by the concrete witnesses below. -/

/-- A fromisoformat stub for witnesses: two known offset timestamps. -/
def isoFix : String → Option Int := fun s =>
  if s = "2024-06-10T00:00:00+00:00" then some 1000000
  else if s = "2024-05-01T00:00:00+00:00" then some 100
  else none

/-- A profile response body with a present user. -/
def userBodyFix : Json :=
  Json.obj [("data", Json.obj [("user", Json.obj
    [("nick", Json.str "alice"), ("followersCount", Json.num 7),
     ("followeesCount", Json.null), ("creationsCount", Json.num 3)])])]

/-- A creations response body with one creation. -/
def creationsBodyFix : Json :=
  Json.obj [("data", Json.obj [("user", Json.obj
    [("latestCreation", Json.arr [Json.obj
       [("name", Json.str "Widget"), ("shortUrl", Json.str "/en/widget"),
        ("viewsCount", Json.num 10), ("downloadsCount", Json.null),
        ("publishedAt", Json.str "2024-06-10T00:00:00Z")]])])])]

/-- A sales response body with two timestamped sales and one degenerate
record. -/
def salesBodyFix : Json :=
  Json.obj [("data", Json.obj [("myself", Json.obj
    [("salesBatch", Json.obj [("results", Json.arr
       [Json.obj [("income", Json.obj [("value", Json.num 5)]),
                  ("createdAt", Json.str "2024-06-10T00:00:00Z")],
        Json.obj [("income", Json.obj [("value", Json.num 3)]),
                  ("createdAt", Json.str "2024-05-01T00:00:00Z")],
        Json.obj [("income", Json.null)]])])])])]

/-- A tracked-item response body with a present creation. -/
def trackedBodyFix : Json :=
  Json.obj [("data", Json.obj [("creation", Json.obj
    [("name", Json.str "Thing"), ("shortUrl", Json.str "https://x"),
     ("creator", Json.obj [("nick", Json.str "bob")]),
     ("publishedAt", Json.str "2024-06-10T00:00:00Z")])])]

/-- The sale records carried by the fixture sales body. -/
def salesListFix : List Json :=
  [Json.obj [("income", Json.obj [("value", Json.num 5)]),
             ("createdAt", Json.str "2024-06-10T00:00:00Z")],
   Json.obj [("income", Json.obj [("value", Json.num 3)]),
             ("createdAt", Json.str "2024-05-01T00:00:00Z")],
   Json.obj [("income", Json.null)]]

/-- A fully healthy cycle environment, except that the query for slug
widget-x gets HTTP 404. -/
def envFix : CycleEnv :=
  { userResp := .status 200 userBodyFix
    creationsResp := .status 200 creationsBodyFix
    salesResp := .status 200 salesBodyFix
    trackedResp := fun s =>
      if s = "widget-x" then .status 404 (Json.obj [])
      else .status 200 trackedBodyFix
    username := "alice"
    now := 1000500
    iso := isoFix }

/-- The environment refuting the claim that an HTTP 401 on any sub-fetch
fails the cycle: the profile and creations queries succeed, the sales query
gets HTTP 401. -/
def envAuthSwallow : CycleEnv :=
  { envFix with salesResp := .status 401 (Json.obj []) }

/-- An environment whose strict profile query gets HTTP 401. -/
def envAuth401 : CycleEnv :=
  { envFix with userResp := .status 401 (Json.obj []) }

/-- An environment whose tracked-item queries get HTTP 401. -/
def envTracked401 : CycleEnv :=
  { envFix with trackedResp := fun _ => .status 401 (Json.obj []) }

/-- An environment whose profile query returns a well-formed body with a
null user. -/
def envUserNull : CycleEnv :=
  { envFix with
      userResp := .status 200 (Json.obj [("data", Json.obj [("user", Json.null)])]) }

/-!  General helper lemmas. -/

theorem alistFind_dictInsert {α : Type} (m : List (String × α)) (k k' : String)
    (v : α) :
    alistFind (dictInsert m k v) k' = if k = k' then some v else alistFind m k' := by
  induction m with
  | nil => simp [dictInsert, alistFind]
  | cons p rest ih =>
      obtain ⟨k0, v0⟩ := p
      by_cases h0 : k0 = k
      · subst h0
        by_cases h1 : k0 = k'
        · subst h1; simp [dictInsert, alistFind]
        · simp [dictInsert, alistFind, h1]
      · by_cases h1 : k0 = k'
        · subst h1
          simp [dictInsert, alistFind, h0]
          rw [if_neg (fun h => h0 h.symm)]
        · simp [dictInsert, alistFind, h0, h1, ih]

theorem mem_of_mem_takeWhile {p : Char → Bool} {l : List Char} {c : Char}
    (h : c ∈ l.takeWhile p) : c ∈ l :=
  List.Sublist.mem h (List.takeWhile_sublist p)

theorem mem_of_mem_dropWhile {p : Char → Bool} {l : List Char} {c : Char}
    (h : c ∈ l.dropWhile p) : c ∈ l :=
  List.Sublist.mem h (List.dropWhile_sublist p)

theorem dropLit_pat_mem {p l r : List Char} (h : dropLit p l = some r) :
    ∀ c ∈ p, c ∈ l := by
  induction p generalizing l with
  | nil => intro c hc; cases hc
  | cons a as ih =>
      cases l with
      | nil => cases h
      | cons b bs =>
          unfold dropLit at h
          by_cases hb : b = a
          · subst hb
            simp at h
            intro c hc
            rcases List.mem_cons.mp hc with h1 | h1
            · subst h1; exact List.mem_cons_self _ _
            · exact List.mem_cons_of_mem _ (ih h c h1)
          · simp [hb] at h

theorem dropLit_rest_mem {p l r : List Char} (h : dropLit p l = some r) :
    ∀ c ∈ r, c ∈ l := by
  induction p generalizing l with
  | nil =>
      unfold dropLit at h
      cases h
      intro c hc; exact hc
  | cons a as ih =>
      cases l with
      | nil => cases h
      | cons b bs =>
          unfold dropLit at h
          by_cases hb : b = a
          · subst hb
            simp at h
            intro c hc
            exact List.mem_cons_of_mem _ (ih h c hc)
          · simp [hb] at h

theorem host_append_ne_empty (u : String) : ("https://cults3d.com" ++ u) ≠ "" := by
  intro h
  have h2 : ("https://cults3d.com" ++ u).data = ("" : String).data := by rw [h]
  rw [String.data_append] at h2
  rcases List.append_eq_nil.mp h2 with ⟨h3, _⟩
  exact absurd h3 (by decide)

theorem data_ne_nil_of_slash {u : String} {cs : List Char}
    (hu : u.data = '/' :: cs) : u ≠ "" := by
  intro h
  rw [h] at hu
  cases hu

theorem startsWith_slash_shape {u : String} (h : pyStartsWith u "/" = true) :
    ∃ cs, u.data = '/' :: cs := by
  have h' : isPrefixList ['/'] u.data = true := h
  cases hu : u.data with
  | nil => rw [hu] at h'; exact absurd h' (by decide)
  | cons c cs =>
      rw [hu] at h'
      simp [isPrefixList] at h'
      exact ⟨cs, by rw [h']⟩

theorem startsWith_http_shape {u : String} (h : pyStartsWith u "http" = true) :
    ∃ cs, u.data = 'h' :: cs := by
  have h' : isPrefixList ['h', 't', 't', 'p'] u.data = true := h
  cases hu : u.data with
  | nil => rw [hu] at h'; exact absurd h' (by decide)
  | cons c cs =>
      rw [hu] at h'
      simp [isPrefixList] at h'
      exact ⟨cs, by rw [h'.1]⟩

theorem slash_not_http {u : String} {cs : List Char}
    (hu : u.data = '/' :: cs) : pyStartsWith u "http" = false := by
  have h' : pyStartsWith u "http" = isPrefixList ['h', 't', 't', 'p'] u.data := rfl
  rw [h', hu]
  simp [isPrefixList]

/-- The url field of both parsers, given the shortUrl string. -/
theorem urlOfCreation_cases {fs : List (String × Json)} {u : String}
    (h : alistFind fs "shortUrl" = some (Json.str u)) :
    urlOfCreation (Json.obj fs) =
      (if u ≠ "" && !(pyStartsWith u "http")
        then some ("https://cults3d.com" ++ u)
        else if u = "" then none else some u) := by
  unfold urlOfCreation
  have hg : (Json.obj fs).get "shortUrl" = some (Json.str u) := h
  rw [hg]
  by_cases h1 : (u ≠ "" && !(pyStartsWith u "http")) = true
  · simp only [h1, if_true]
    rw [if_neg (host_append_ne_empty u)]
  · simp only [h1]
    simp at h1 ⊢

theorem alistFind_ne_nil {α : Type} {fs : List (String × α)} {k : String}
    {v : α} (h : alistFind fs k = some v) : fs ≠ [] := by
  intro he
  rw [he] at h
  cases h

theorem obj_truthy_of_find {fs : List (String × Json)} {k : String} {v : Json}
    (h : alistFind fs k = some v) : (Json.obj fs).truthy = true := by
  have := alistFind_ne_nil h
  simp [Json.truthy, List.isEmpty_iff, this]

/-- C5: for every tracked-item snapshot, when published_at was parsed the
window is derived as window_start = published_at and
window_end = published_at + 30 days, with is_within_30_days true iff
now ≤ window_end; when published_at is absent, window_start and window_end
stay unset and the flag is false. -/
theorem tracked_window_derivation (iso : String → Option Int) (now : Int)
    (cd : Option Json) (slug : String) :
    (∀ t : Int, (parse_single_creation iso now cd slug).published_at = some t →
        (parse_single_creation iso now cd slug).window_start = some t ∧
        (parse_single_creation iso now cd slug).window_end = some (t + 2592000) ∧
        ((parse_single_creation iso now cd slug).is_within_30_days = true ↔
          now ≤ t + 2592000)) ∧
    ((parse_single_creation iso now cd slug).published_at = none →
        (parse_single_creation iso now cd slug).window_start = none ∧
        (parse_single_creation iso now cd slug).window_end = none ∧
        (parse_single_creation iso now cd slug).is_within_30_days = false) := by
  cases cd with
  | none => simp [parse_single_creation]
  | some c =>
      by_cases hc : c.truthy
      · cases hp : parse_pub iso c with
        | none => simp [parse_single_creation, hc, hp]
        | some t0 => simp [parse_single_creation, hc, hp]
      · simp only [Bool.not_eq_true] at hc
        simp [parse_single_creation, hc]

/-- C5 witness: a creation published at timestamp 1000000 observed at cycle
time 1000500 has a derived window ending at 3592000 and an active flag. -/
theorem tracked_window_derivation_witness :
    (parse_single_creation isoFix 1000500
        (some (Json.obj [("publishedAt", Json.str "2024-06-10T00:00:00Z")]))
        "w").published_at = some 1000000 ∧
    (parse_single_creation isoFix 1000500
        (some (Json.obj [("publishedAt", Json.str "2024-06-10T00:00:00Z")]))
        "w").window_end = some 3592000 ∧
    (parse_single_creation isoFix 1000500
        (some (Json.obj [("publishedAt", Json.str "2024-06-10T00:00:00Z")]))
        "w").is_within_30_days = true := by
  have h := (tracked_window_derivation isoFix 1000500
      (some (Json.obj [("publishedAt", Json.str "2024-06-10T00:00:00Z")]))
      "w").1 1000000 (by rfl)
  exact ⟨by rfl, h.2.1, h.2.2.mpr (by decide)⟩

/-- C9: for every parsed creation, own or tracked, a non-empty
root-relative shortUrl is rewritten to the absolute URL prefixed with
https://cults3d.com, while a URL already starting with the http scheme is
left unchanged. -/
theorem url_normalization_rule (iso : String → Option Int) (now : Int)
    (fs : List (String × Json)) (u slug : String)
    (h : alistFind fs "shortUrl" = some (Json.str u)) :
    (pyStartsWith u "/" = true →
        (parse_creation iso (some (Json.arr [Json.obj fs]))).url =
          some ("https://cults3d.com" ++ u) ∧
        (parse_single_creation iso now (some (Json.obj fs)) slug).url =
          some ("https://cults3d.com" ++ u)) ∧
    (pyStartsWith u "http" = true →
        (parse_creation iso (some (Json.arr [Json.obj fs]))).url = some u ∧
        (parse_single_creation iso now (some (Json.obj fs)) slug).url = some u) := by
  have hparse : (parse_creation iso (some (Json.arr [Json.obj fs]))).url =
      urlOfCreation (Json.obj fs) := rfl
  have htr : (parse_single_creation iso now (some (Json.obj fs)) slug).url =
      urlOfCreation (Json.obj fs) := by
    have ht := obj_truthy_of_find h
    simp [parse_single_creation, ht]
  constructor
  · intro hslash
    obtain ⟨cs, hu⟩ := startsWith_slash_shape hslash
    have hne : u ≠ "" := data_ne_nil_of_slash hu
    have hnh : pyStartsWith u "http" = false := slash_not_http hu
    have hurl : urlOfCreation (Json.obj fs) = some ("https://cults3d.com" ++ u) := by
      rw [urlOfCreation_cases h]
      simp [hne, hnh]
    exact ⟨by rw [hparse, hurl], by rw [htr, hurl]⟩
  · intro hhttp
    obtain ⟨cs, hu⟩ := startsWith_http_shape hhttp
    have hne : u ≠ "" := by
      intro he; rw [he] at hu; cases hu
    have hurl : urlOfCreation (Json.obj fs) = some u := by
      rw [urlOfCreation_cases h]
      simp [hne, hhttp]
    exact ⟨by rw [hparse, hurl], by rw [htr, hurl]⟩

/-- C9 witness: a root-relative url is prefixed, an absolute one kept. -/
theorem url_normalization_rule_witness :
    (parse_creation isoFix
        (some (Json.arr [Json.obj [("shortUrl", Json.str "/en/w")]]))).url =
      some ("https://cults3d.com" ++ "/en/w") ∧
    (parse_single_creation isoFix 0
        (some (Json.obj [("shortUrl", Json.str "https://cults3d.com/en/w")]))
        "w").url = some "https://cults3d.com/en/w" := by
  refine ⟨((url_normalization_rule isoFix 0
      [("shortUrl", Json.str "/en/w")] "/en/w" "w" (by rfl)).1 (by decide)).1,
    ((url_normalization_rule isoFix 0
      [("shortUrl", Json.str "https://cults3d.com/en/w")]
      "https://cults3d.com/en/w" "w" (by rfl)).2 (by decide)).2⟩

/-- C10: a present but unparseable publishedAt string is treated like an
absent one and never raises: published_at stays none, the tracked window
fields stay none and the flag stays false; a sale whose createdAt is
missing or unparseable still contributes to the total aggregates but never
to the monthly ones. -/
theorem unparseable_timestamp_handling (iso : String → Option Int)
    (now cutoff : Int) (c : Json) (slug s : String) (ta ma : ℚ) (tc mc : Nat) :
    (pubStrOf c = some s → iso (pyReplaceZ s) = none →
        (parse_single_creation iso now (some c) slug).published_at = none ∧
        (parse_single_creation iso now (some c) slug).window_start = none ∧
        (parse_single_creation iso now (some c) slug).window_end = none ∧
        (parse_single_creation iso now (some c) slug).is_within_30_days = false ∧
        (parse_creation iso (some (Json.arr [c]))).published_at = none) ∧
    (∀ sale : Json, ∀ v : ℚ, saleIncome sale = some v →
        (sale.get "createdAt" = none ∨
          (∃ s2, sale.get "createdAt" = some (Json.str s2) ∧
            iso (pyReplaceZ s2) = none)) →
        salesLoop iso cutoff [sale] (ta, tc, ma, mc) =
          some (ta + v, tc + 1, ma, mc)) := by
  constructor
  · intro hs hnone
    have hp : parse_pub iso c = none := by
      unfold parse_pub
      rw [hs]
      exact hnone
    have hcr : (parse_creation iso (some (Json.arr [c]))).published_at =
        parse_pub iso c := rfl
    by_cases hc : c.truthy
    · simp [parse_single_creation, hc, hp, hcr]
    · simp only [Bool.not_eq_true] at hc
      simp [parse_single_creation, hc, hcr, hp]
  · intro sale v hv hcr
    have hm : saleMonthly iso cutoff sale = some false := by
      rcases hcr with h0 | ⟨s2, h1, h2⟩
      · unfold saleMonthly
        rw [h0]
      · unfold saleMonthly
        rw [h1]
        by_cases he : s2 = ""
        · simp [he, Json.truthy]
        · simp [Json.truthy, he, h2]
    simp [salesLoop, hv, hm]

/-- C10 witness: the garbage timestamp parses to nothing and leaves the
window unset; a createdAt-free sale of value 5 lands only in the totals. -/
theorem unparseable_timestamp_handling_witness :
    (parse_single_creation isoFix 1000500
        (some (Json.obj [("publishedAt", Json.str "garbage")])) "w").published_at
        = none ∧
    (parse_single_creation isoFix 1000500
        (some (Json.obj [("publishedAt", Json.str "garbage")]))
        "w").is_within_30_days = false ∧
    salesLoop isoFix (-1591500)
        [Json.obj [("income", Json.obj [("value", Json.num 5)])]] (0, 0, 0, 0) =
      some (5, 1, 0, 0) := by
  have h := unparseable_timestamp_handling isoFix 1000500 (-1591500)
      (Json.obj [("publishedAt", Json.str "garbage")]) "w" "garbage" 0 0 0 0
  refine ⟨(h.1 (by rfl) (by rfl)).1, (h.1 (by rfl) (by rfl)).2.2.2.1, ?_⟩
  have h2 := h.2 (Json.obj [("income", Json.obj [("value", Json.num 5)])]) 5
      (by rfl) (Or.inl (by rfl))
  simpa using h2

/-- C4: when the strict profile query returns a well-formed response whose
user object is null or absent, the refresh cycle fails as a whole with the
generic update-failed error naming the missing user, no snapshot being
produced (the host then keeps the previously published snapshot), and this
failure kind is distinct from the auth-failure kind. -/
theorem profile_user_missing_fails (env : CycleEnv) (slugs : List String)
    (r : Json) (hq : async_execute_query true env.userResp = Except.ok r)
    (_hobj : (dataOf r).isObjB = true)
    (huser : userNone (dataOf r) = true) :
    async_update_data env slugs =
      Except.error (CycleError.updateFailed
        ("User '" ++ env.username ++ "' not found")) ∧
    (∀ m, CycleError.updateFailed ("User '" ++ env.username ++ "' not found") ≠
        CycleError.authFailed m) := by
  constructor
  · unfold async_update_data
    rw [hq]
    dsimp only
    unfold userNone at huser
    rw [Option.isNone_iff_eq_none] at huser
    rw [huser]
  · intro m h
    cases h

/-- C4 witness: a 200 response with a null user makes the cycle fail with
the update-failed error naming alice. -/
theorem profile_user_missing_fails_witness :
    async_update_data envUserNull [] =
      Except.error (CycleError.updateFailed "User 'alice' not found") := by
  have h := (profile_user_missing_fails envUserNull []
      (Json.obj [("data", Json.obj [("user", Json.null)])])
      (by rfl) (by rfl) (by rfl)).1
  exact h

/-- C8: the credential-validation primitives return a boolean that is true
iff the strict minimal query succeeded with a non-null user object; an auth
failure during the query and an absent user both yield false, without the
caller being able to distinguish the two causes from the returned value. -/
theorem credential_validation_boolean (resp : HttpResponse) :
    (async_validate_credentials resp = true ↔
      ∃ r, async_execute_query true resp = Except.ok r ∧
        userNone (dataOf r) = false) ∧
    (∀ e, async_execute_query true resp = Except.error e →
      async_validate_credentials resp = false) ∧
    (∀ r, async_execute_query true resp = Except.ok r →
      userNone (dataOf r) = true → async_validate_credentials resp = false) ∧
    (validate_credentials_flow resp = true ↔
      ∃ body, resp = HttpResponse.status 200 body ∧ hasErrors body = false ∧
        userNone (dataOf body) = false) := by
  refine ⟨?_, ?_, ?_, ?_⟩
  · unfold async_validate_credentials
    cases hq : async_execute_query true resp with
    | error e => simp
    | ok r =>
        simp only [Bool.not_eq_true']
        constructor
        · intro h; exact ⟨r, rfl, h⟩
        · rintro ⟨r2, hr2, h2⟩
          cases hr2
          exact h2
  · intro e he
    unfold async_validate_credentials
    rw [he]
  · intro r hr hn
    unfold async_validate_credentials
    rw [hr]
    simp [hn]
  · cases resp with
    | status code body =>
        constructor
        · intro h
          unfold validate_credentials_flow at h
          dsimp only at h
          by_cases hc : code = 200
          · subst hc
            rw [if_neg (show ¬((200 : Nat) ≠ 200) by simp)] at h
            by_cases he : hasErrors body = true
            · rw [if_pos he] at h; cases h
            · rw [if_neg he] at h
              refine ⟨body, rfl, by simpa using he, by simpa using h⟩
          · rw [if_pos (by simpa using hc)] at h; cases h
        · rintro ⟨b2, hb2, h1, h2⟩
          injection hb2 with hcode hbody
          subst hcode
          subst hbody
          unfold validate_credentials_flow
          dsimp only
          rw [if_neg (show ¬((200 : Nat) ≠ 200) by simp),
              if_neg (show ¬(hasErrors body = true) by simp [h1]), h2]
          rfl
    | respError code msg =>
        constructor
        · intro h; cases h
        · rintro ⟨b2, hb2, _, _⟩; cases hb2
    | connError msg =>
        constructor
        · intro h; cases h
        · rintro ⟨b2, hb2, _, _⟩; cases hb2

/-- C8 witness: valid credentials with a present user validate, an HTTP 401
and a null user both yield false through both primitives. -/
theorem credential_validation_boolean_witness :
    async_validate_credentials (HttpResponse.status 200 userBodyFix) = true ∧
    async_validate_credentials (HttpResponse.status 401 (Json.obj [])) = false ∧
    validate_credentials_flow (HttpResponse.status 200 userBodyFix) = true := by
  refine ⟨(credential_validation_boolean
      (HttpResponse.status 200 userBodyFix)).1.mpr ⟨userBodyFix, by rfl, by rfl⟩,
    (credential_validation_boolean (HttpResponse.status 401 (Json.obj []))).2.1
      (CycleError.authFailed "Invalid username or API key") (by rfl),
    (credential_validation_boolean
      (HttpResponse.status 200 userBodyFix)).2.2.2.mpr
        ⟨userBodyFix, rfl, by rfl, by rfl⟩⟩

theorem pyReplaceZList_no_z {l : List Char} (h : ∀ c ∈ l, c ≠ 'Z') :
    pyReplaceZList l = l := by
  induction l with
  | nil => rfl
  | cons c cs ih =>
      unfold pyReplaceZList
      rw [if_neg (h c (List.mem_cons_self c cs)),
        ih (fun c2 hc2 => h c2 (List.mem_cons_of_mem c hc2))]

theorem pyReplaceZList_append_z {l : List Char} (h : ∀ c ∈ l, c ≠ 'Z') :
    pyReplaceZList (l ++ ['Z']) = l ++ plusZeros := by
  induction l with
  | nil => rfl
  | cons c cs ih =>
      have hc : c ≠ 'Z' := h c (List.mem_cons_self c cs)
      have hcs : ∀ c2 ∈ cs, c2 ≠ 'Z' :=
        fun c2 hc2 => h c2 (List.mem_cons_of_mem c hc2)
      simp only [List.cons_append]
      unfold pyReplaceZList
      rw [if_neg hc, ih hcs]

/-- A string ending in a single trailing Z is Z-normalised to the same
string with the explicit offset +00:00 instead. -/
theorem pyReplaceZ_trailing (t : String) (h : ∀ c ∈ t.data, c ≠ 'Z') :
    pyReplaceZ (t ++ "Z") = t ++ "+00:00" := by
  apply String.ext
  show pyReplaceZList (t ++ "Z").data = (t ++ "+00:00").data
  rw [String.data_append, String.data_append]
  show pyReplaceZList (t.data ++ ['Z']) = t.data ++ plusZeros
  exact pyReplaceZList_append_z h

/-- C6: the creations fetch yields the default pair on any failure or
absent data; on success it parses the single returned creation,
substituting 0 for missing or null numeric counts and parsing publishedAt
after normalising a trailing Z to an explicit offset, and assigns this same
parsed value to both latest_creation and top_downloaded. -/
theorem creations_fetch_behavior (env : CycleEnv) :
    ((fetch_creations_data env).2 = (fetch_creations_data env).1) ∧
    (∀ e, async_execute_query false env.creationsResp = Except.error e →
        fetch_creations_data env = ({}, {})) ∧
    (∀ r, async_execute_query false env.creationsResp = Except.ok r →
        (hasErrors r = true ∨ (dataOf r).get "user" = none ∨
          (∃ u, (dataOf r).get "user" = some u ∧ u.truthy = false)) →
        fetch_creations_data env = ({}, {})) ∧
    (∀ r u, async_execute_query false env.creationsResp = Except.ok r →
        hasErrors r = false → (dataOf r).get "user" = some u →
        u.truthy = true →
        fetch_creations_data env =
          (parse_creation env.iso (u.get "latestCreation"),
            parse_creation env.iso (u.get "latestCreation"))) ∧
    (∀ c : Json, ∀ rest : List Json, ∀ t : String,
        pubStrOf c = some (t ++ "Z") → (∀ ch ∈ t.data, ch ≠ 'Z') →
        (parse_creation env.iso (some (Json.arr (c :: rest)))).published_at =
          env.iso (t ++ "+00:00")) ∧
    (∀ c : Json, ∀ rest : List Json,
        ((c.get "viewsCount" = none ∨ c.get "viewsCount" = some Json.null) →
          (parse_creation env.iso (some (Json.arr (c :: rest)))).views_count = 0) ∧
        ((c.get "downloadsCount" = none ∨ c.get "downloadsCount" = some Json.null) →
          (parse_creation env.iso
            (some (Json.arr (c :: rest)))).downloads_count = 0) ∧
        ((c.get "likesCount" = none ∨ c.get "likesCount" = some Json.null) →
          (parse_creation env.iso (some (Json.arr (c :: rest)))).likes_count = 0)) := by
  refine ⟨?_, ?_, ?_, ?_, ?_, ?_⟩
  · unfold fetch_creations_data
    cases async_execute_query false env.creationsResp with
    | error e => rfl
    | ok r =>
        dsimp only
        by_cases he : hasErrors r
        · rw [if_pos he]
        · rw [if_neg he]
          cases (dataOf r).get "user" with
          | none => rfl
          | some u =>
              dsimp only
              by_cases hu : u.truthy
              · simp [hu]
              · simp [hu]
  · intro e he
    unfold fetch_creations_data
    rw [he]
  · intro r hr hcase
    unfold fetch_creations_data
    rw [hr]
    dsimp only
    rcases hcase with h1 | h1 | ⟨u, h1, h2⟩
    · rw [if_pos h1]
    · by_cases he : hasErrors r
      · rw [if_pos he]
      · rw [if_neg he, h1]
    · by_cases he : hasErrors r
      · rw [if_pos he]
      · rw [if_neg he, h1]
        dsimp only
        simp [h2]
  · intro r u hr he h1 h2
    unfold fetch_creations_data
    rw [hr]
    dsimp only
    rw [if_neg (by simp [he]), h1]
    dsimp only
    simp [h2]
  · intro c rest t hps hnz
    have hp : (parse_creation env.iso (some (Json.arr (c :: rest)))).published_at =
        parse_pub env.iso c := rfl
    rw [hp]
    unfold parse_pub
    rw [hps]
    dsimp only
    rw [pyReplaceZ_trailing t hnz]
  · intro c rest
    refine ⟨?_, ?_, ?_⟩ <;> intro hcase
    · have hv : (parse_creation env.iso (some (Json.arr (c :: rest)))).views_count =
          pyOr0 (c.get "viewsCount") := rfl
      rw [hv]
      rcases hcase with h | h <;> rw [h] <;> rfl
    · have hv : (parse_creation env.iso
          (some (Json.arr (c :: rest)))).downloads_count =
          pyOr0 (c.get "downloadsCount") := rfl
      rw [hv]
      rcases hcase with h | h <;> rw [h] <;> rfl
    · have hv : (parse_creation env.iso (some (Json.arr (c :: rest)))).likes_count =
          pyOr0 (c.get "likesCount") := rfl
      rw [hv]
      rcases hcase with h | h <;> rw [h] <;> rfl

/-- C6 witness: the fixture creations response parses its one creation with
null downloads carried as 0, the trailing Z tolerated, and the same value in
both snapshot slots. -/
theorem creations_fetch_behavior_witness :
    fetch_creations_data envFix =
      (parse_creation isoFix
        ((Json.obj [("latestCreation", Json.arr [Json.obj
          [("name", Json.str "Widget"), ("shortUrl", Json.str "/en/widget"),
           ("viewsCount", Json.num 10), ("downloadsCount", Json.null),
           ("publishedAt", Json.str "2024-06-10T00:00:00Z")]])]).get
            "latestCreation"),
       parse_creation isoFix
        ((Json.obj [("latestCreation", Json.arr [Json.obj
          [("name", Json.str "Widget"), ("shortUrl", Json.str "/en/widget"),
           ("viewsCount", Json.num 10), ("downloadsCount", Json.null),
           ("publishedAt", Json.str "2024-06-10T00:00:00Z")]])]).get
            "latestCreation")) ∧
    (fetch_creations_data envFix).1.downloads_count = 0 ∧
    (fetch_creations_data envFix).1.published_at = some 1000000 := by
  refine ⟨(creations_fetch_behavior envFix).2.2.2.1 creationsBodyFix
    (Json.obj [("latestCreation", Json.arr [Json.obj
      [("name", Json.str "Widget"), ("shortUrl", Json.str "/en/widget"),
       ("viewsCount", Json.num 10), ("downloadsCount", Json.null),
       ("publishedAt", Json.str "2024-06-10T00:00:00Z")]])])
    (by rfl) (by rfl) (by rfl) (by rfl), by rfl, by rfl⟩

theorem salesLoop_spec (iso : String → Option Int) (cutoff : Int)
    (sales : List Json)
    (hwf : ∀ s ∈ sales, wfSale iso cutoff s = true) :
    ∀ ta ma : ℚ, ∀ tc mc : Nat,
      salesLoop iso cutoff sales (ta, tc, ma, mc) =
        some (ta + (sales.map saleIncomeD).sum,
              tc + sales.length,
              ma + ((sales.filter (saleMonthlyB iso cutoff)).map saleIncomeD).sum,
              mc + (sales.filter (saleMonthlyB iso cutoff)).length) := by
  induction sales with
  | nil => intro ta ma tc mc; simp [salesLoop]
  | cons s rest ih =>
      intro ta ma tc mc
      have hs := hwf s (List.mem_cons_self s rest)
      have hrest : ∀ s2 ∈ rest, wfSale iso cutoff s2 = true :=
        fun s2 hs2 => hwf s2 (List.mem_cons_of_mem s hs2)
      unfold wfSale at hs
      rw [Bool.and_eq_true] at hs
      obtain ⟨v, hv⟩ := Option.isSome_iff_exists.mp hs.1
      obtain ⟨b, hb⟩ := Option.isSome_iff_exists.mp hs.2
      have hvD : saleIncomeD s = v := by unfold saleIncomeD; rw [hv]; rfl
      have hbB : saleMonthlyB iso cutoff s = b := by
        unfold saleMonthlyB; rw [hb]; rfl
      unfold salesLoop
      rw [hv, hb]
      dsimp only
      rw [ih hrest]
      have hfilter : List.filter (saleMonthlyB iso cutoff) (s :: rest) =
          (if b = true then s :: List.filter (saleMonthlyB iso cutoff) rest
            else List.filter (saleMonthlyB iso cutoff) rest) := by
        rw [List.filter_cons, hbB]
      rw [hfilter]
      cases b with
      | false =>
          simp only [Bool.false_eq_true, if_false, List.map_cons,
            List.sum_cons, List.length_cons, hvD, Option.some.injEq,
            Prod.mk.injEq]
          refine ⟨by ring, by omega, trivial⟩
      | true =>
          simp only [if_true, List.map_cons, List.sum_cons, List.length_cons,
            hvD, Option.some.injEq, Prod.mk.injEq]
          refine ⟨by ring, by omega, by ring, by omega⟩

/-- C3: on a successful sales fetch with records of income values v and
timestamps t, total_sales_amount is the sum of the v (missing or null
income contributing 0), total_sales_count is the number of records, the
monthly aggregates sum and count exactly the records whose parsed timestamp
lies in the trailing 30-day window (t at least now - 30 days, the test the
source and spec use), and sales_data_available is true even with zero
records; on any fetch failure or absent account-scoped object all four
fields are 0 and the flag is false. -/
theorem sales_aggregation (env : CycleEnv) :
    (∀ sales, salesResults env = some sales →
        (∀ s ∈ sales, wfSale env.iso (env.now - 2592000) s = true) →
        fetch_sales_data env =
          ((sales.map saleIncomeD).sum, sales.length,
           ((sales.filter (saleMonthlyB env.iso (env.now - 2592000))).map
              saleIncomeD).sum,
           (sales.filter (saleMonthlyB env.iso (env.now - 2592000))).length,
           true)) ∧
    (salesResults env = none → fetch_sales_data env = (0, 0, 0, 0, false)) ∧
    (∀ s : Json, ∀ fs2 : List (String × Json), s = Json.obj fs2 →
        (s.get "income" = none ∨ s.get "income" = some Json.null) →
        saleIncomeD s = 0) := by
  refine ⟨?_, ?_, ?_⟩
  · intro sales hres hwf
    unfold fetch_sales_data
    rw [hres]
    dsimp only
    rw [salesLoop_spec env.iso (env.now - 2592000) sales hwf 0 0 0 0]
    simp
  · intro hres
    unfold fetch_sales_data
    rw [hres]
  · intro s fs2 hs hcase
    subst hs
    unfold saleIncomeD saleIncome
    rcases hcase with h | h <;> rw [h] <;> rfl

/-- C3 witness: the fixture sales response has records of values 5, 3 and a
null-income record; the totals see 3 records summing to 8, the two
timestamped sales fall in the 30-day window, and the flag is true. -/
theorem sales_aggregation_witness :
    salesResults envFix = some salesListFix ∧
    fetch_sales_data envFix =
      ((salesListFix.map saleIncomeD).sum, salesListFix.length,
       ((salesListFix.filter (saleMonthlyB envFix.iso (envFix.now - 2592000))).map
          saleIncomeD).sum,
       (salesListFix.filter (saleMonthlyB envFix.iso (envFix.now - 2592000))).length,
       true) ∧
    (fetch_sales_data envFix).1 = 8 ∧
    (fetch_sales_data envFix).2.1 = 3 ∧
    (fetch_sales_data envFix).2.2.1 = 8 ∧
    (fetch_sales_data envFix).2.2.2.1 = 2 ∧
    (fetch_sales_data envFix).2.2.2.2 = true := by
  have h := (sales_aggregation envFix).1 salesListFix (by rfl) (by decide)
  refine ⟨by rfl, h, ?_, ?_, ?_, ?_, ?_⟩
  · rw [h]
    show ([(5 : ℚ), 3, 0]).sum = 8
    simp [List.sum_cons, List.sum_nil]
    norm_num
  · rw [h]
    rfl
  · rw [h]
    show ([(5 : ℚ), 3]).sum = 8
    simp [List.sum_cons, List.sum_nil]
    norm_num
  · rw [h]
    rfl
  · rw [h]

theorem degraded_fetch_default (env : CycleEnv) (s : String)
    (h : tracked_fetch_degraded env s = true) :
    fetch_tracked_creation env s = Except.ok { slug := s } := by
  unfold tracked_fetch_degraded at h
  unfold fetch_tracked_creation
  cases hq : async_execute_query true (env.trackedResp s) with
  | error e =>
      rw [hq] at h
      cases e with
      | authFailed m => cases h
      | updateFailed m => rfl
  | ok result =>
      rw [hq] at h
      dsimp only at h ⊢
      cases hc : (dataOf result).get "creation" with
      | none => rfl
      | some c =>
          rw [hc] at h
          have h2 : (!c.truthy) = true := h
          simp only [parse_single_creation]
          rw [if_pos h2]

theorem fetch_tracked_all_mem (env : CycleEnv) :
    ∀ slugs : List String, ∀ acc res : List (String × TrackedCreationData),
      fetch_tracked_all env acc slugs = Except.ok res →
      ∀ s, (alistFind res s).isSome =
        ((alistFind acc s).isSome || decide (s ∈ slugs)) := by
  intro slugs
  induction slugs with
  | nil =>
      intro acc res h s
      unfold fetch_tracked_all at h
      injection h with h2
      subst h2
      simp
  | cons a rest ih =>
      intro acc res h s
      unfold fetch_tracked_all at h
      cases hf : fetch_tracked_creation env a with
      | error e => rw [hf] at h; cases h
      | ok td =>
          rw [hf] at h
          dsimp only at h
          rw [ih (dictInsert acc a td) res h s, alistFind_dictInsert]
          by_cases hsa : a = s
          · subst hsa
            simp
          · simp only [if_neg hsa]
            have hmem : (s ∈ a :: rest) ↔ (s ∈ rest) := by
              constructor
              · intro h2
                rcases List.mem_cons.mp h2 with h3 | h3
                · exact absurd h3.symm hsa
                · exact h3
              · exact List.mem_cons_of_mem a
            rw [decide_eq_decide.mpr hmem]

theorem fetch_tracked_all_not_mem (env : CycleEnv) :
    ∀ slugs : List String, ∀ acc res : List (String × TrackedCreationData),
      fetch_tracked_all env acc slugs = Except.ok res →
      ∀ s, s ∉ slugs → alistFind res s = alistFind acc s := by
  intro slugs
  induction slugs with
  | nil =>
      intro acc res h s _
      unfold fetch_tracked_all at h
      injection h with h2
      subst h2
      rfl
  | cons a rest ih =>
      intro acc res h s hs
      unfold fetch_tracked_all at h
      cases hf : fetch_tracked_creation env a with
      | error e => rw [hf] at h; cases h
      | ok td =>
          rw [hf] at h
          dsimp only at h
          have hsa : ¬(a = s) := by
            intro h2
            exact hs (by rw [← h2]; exact List.mem_cons_self a rest)
          have hrest : s ∉ rest := fun h2 => hs (List.mem_cons_of_mem a h2)
          rw [ih (dictInsert acc a td) res h s hrest, alistFind_dictInsert,
            if_neg hsa]

theorem fetch_tracked_all_degraded (env : CycleEnv) :
    ∀ slugs : List String, ∀ acc res : List (String × TrackedCreationData),
      fetch_tracked_all env acc slugs = Except.ok res →
      ∀ s, s ∈ slugs → tracked_fetch_degraded env s = true →
        alistFind res s = some { slug := s } := by
  intro slugs
  induction slugs with
  | nil => intro acc res h s hs; cases hs
  | cons a rest ih =>
      intro acc res h s hs hdeg
      unfold fetch_tracked_all at h
      cases hf : fetch_tracked_creation env a with
      | error e => rw [hf] at h; cases h
      | ok td =>
          rw [hf] at h
          dsimp only at h
          by_cases hmem : s ∈ rest
          · exact ih _ _ h s hmem hdeg
          · have hsa : s = a := by
              rcases List.mem_cons.mp hs with h1 | h1
              · exact h1
              · exact absurd h1 hmem
            subst hsa
            have htd : td = { slug := s } := by
              have h2 := degraded_fetch_default env s hdeg
              rw [hf] at h2
              exact Except.ok.inj h2
            rw [fetch_tracked_all_not_mem env rest _ _ h s hmem,
              alistFind_dictInsert, if_pos rfl, htd]

/-- C1: the tracked mapping of a snapshot produced by a successful refresh
cycle has exactly the configured slugs as keys, and every slug whose
single-item fetch failed or returned absent data maps to the entry holding
only that slug, every other field at its documented default. -/
theorem tracked_mapping_complete (env : CycleEnv) (slugs : List String)
    (snap : Cults3DData) (h : async_update_data env slugs = Except.ok snap) :
    (∀ s, ((alistFind snap.tracked_creations s).isSome = true) ↔ s ∈ slugs) ∧
    (∀ s, s ∈ slugs → tracked_fetch_degraded env s = true →
        alistFind snap.tracked_creations s = some { slug := s }) := by
  obtain ⟨tracked, htr, hsnap⟩ :
      ∃ tracked, fetch_tracked_all env [] slugs = Except.ok tracked ∧
        snap.tracked_creations = tracked := by
    unfold async_update_data at h
    cases hq : async_execute_query true env.userResp with
    | error e => rw [hq] at h; cases h
    | ok result =>
        rw [hq] at h
        dsimp only at h
        cases hu : userVal (dataOf result) with
        | none => rw [hu] at h; cases h
        | some u =>
            rw [hu] at h
            dsimp only at h
            cases htr2 : fetch_tracked_all env [] slugs with
            | error e => rw [htr2] at h; cases h
            | ok tracked =>
                rw [htr2] at h
                dsimp only at h
                injection h with h2
                exact ⟨tracked, rfl, by rw [← h2]⟩
  rw [hsnap]
  constructor
  · intro s
    rw [fetch_tracked_all_mem env slugs [] tracked htr s]
    simp [alistFind]
  · intro s hs hdeg
    exact fetch_tracked_all_degraded env slugs [] tracked htr s hs hdeg

/-- C1 witness: with tracked slugs widget-x (whose query gets HTTP 404) and
thing (healthy), both appear as keys, absent slugs do not, and the degraded
widget-x entry is the slug-only default. -/
theorem tracked_mapping_complete_witness :
    isOkE (async_update_data envFix ["widget-x", "thing"]) = true ∧
    ((alistFind ((async_update_data envFix
        ["widget-x", "thing"]).toOption.getD {}).tracked_creations
        "widget-x").isSome = true) ∧
    ((alistFind ((async_update_data envFix
        ["widget-x", "thing"]).toOption.getD {}).tracked_creations
        "other").isSome = false) ∧
    alistFind ((async_update_data envFix
        ["widget-x", "thing"]).toOption.getD {}).tracked_creations "widget-x" =
      some { slug := "widget-x" } := by
  have h := tracked_mapping_complete envFix ["widget-x", "thing"]
      ((async_update_data envFix ["widget-x", "thing"]).toOption.getD {}) (by rfl)
  refine ⟨by rfl, h.1 "widget-x" |>.mpr (by simp), ?_, ?_⟩
  · have h2 := h.1 "other"
    have h3 : ("other" : String) ∉ ["widget-x", "thing"] := by decide
    cases hx : (alistFind ((async_update_data envFix
        ["widget-x", "thing"]).toOption.getD {}).tracked_creations "other").isSome
    · rfl
    · exact absurd (h2.mp hx) h3
  · exact h.2 "widget-x" (by simp) (by rfl)

/-- C2 counterexample: with the sales query answering HTTP 401 and every
other query healthy, the refresh cycle does not fail at all — the blanket
handler of the sales fetch swallows the auth failure — refuting the claim
that a 401 on every sub-fetch fails the cycle with an auth error. -/
theorem auth_swallowed_counterexample :
    envAuthSwallow.salesResp = HttpResponse.status 401 (Json.obj []) ∧
    isOkE (async_update_data envAuthSwallow []) = true :=
  ⟨rfl, by rfl⟩

theorem fetch_tracked_creation_err {env : CycleEnv} {a : String}
    {e : CycleError} (h : fetch_tracked_creation env a = Except.error e) :
    ∃ m, e = CycleError.authFailed m := by
  unfold fetch_tracked_creation at h
  cases hq : async_execute_query true (env.trackedResp a) with
  | error e2 =>
      rw [hq] at h
      cases e2 with
      | authFailed m =>
          dsimp only at h
          injection h with h2
          exact ⟨m, h2.symm⟩
      | updateFailed m => cases h
  | ok r => rw [hq] at h; cases h

theorem fetch_tracked_all_auth (env : CycleEnv) (s : String) (body : Json)
    (hs : env.trackedResp s = HttpResponse.status 401 body) :
    ∀ slugs : List String, ∀ acc : List (String × TrackedCreationData),
      s ∈ slugs →
      ∃ m, fetch_tracked_all env acc slugs =
        Except.error (CycleError.authFailed m) := by
  intro slugs
  induction slugs with
  | nil => intro acc h; cases h
  | cons a rest ih =>
      intro acc hmem
      cases hf : fetch_tracked_creation env a with
      | error e =>
          obtain ⟨m, rfl⟩ := fetch_tracked_creation_err hf
          exact ⟨m, by unfold fetch_tracked_all; rw [hf]⟩
      | ok td =>
          rcases List.mem_cons.mp hmem with h1 | h1
          · exfalso
            have h2 : fetch_tracked_creation env s =
                Except.error (CycleError.authFailed
                  "Invalid username or API key") := by
              unfold fetch_tracked_creation
              rw [hs]
              rfl
            rw [← h1] at hf
            rw [h2] at hf
            cases hf
          · obtain ⟨m, hm⟩ := ih (dictInsert acc a td) h1
            exact ⟨m, by unfold fetch_tracked_all; rw [hf]; dsimp only; exact hm⟩

/-- C2 amended: the API client raises AuthFailure on HTTP 401 or 403
regardless of the strict flag, and such a response fails the cycle when it
occurs on the strict profile query or on any tracked-item query; on the
creations and sales sub-fetches, however, the blanket exception handlers
absorb the auth failure and merely degrade those fields, the cycle
succeeding; whenever the cycle does fail with AuthFailure the error is
distinguishable from the update-failed kind. -/
theorem auth_failure_classification :
    (∀ b : Bool, ∀ body : Json,
        async_execute_query b (HttpResponse.status 401 body) =
          Except.error (CycleError.authFailed "Invalid username or API key") ∧
        async_execute_query b (HttpResponse.status 403 body) =
          Except.error (CycleError.authFailed
            "Access forbidden - check your API key permissions")) ∧
    (∀ b : Bool, ∀ code : Nat, ∀ msg : String, (code = 401 ∨ code = 403) →
        async_execute_query b (HttpResponse.respError code msg) =
          Except.error (CycleError.authFailed
            "Authentication failed - check your credentials")) ∧
    (∀ env : CycleEnv, ∀ slugs : List String, ∀ body : Json,
        env.userResp = HttpResponse.status 401 body →
        async_update_data env slugs =
          Except.error (CycleError.authFailed "Invalid username or API key")) ∧
    (∀ env : CycleEnv, ∀ slugs : List String, ∀ s : String,
        ∀ body r u : Json,
        env.trackedResp s = HttpResponse.status 401 body → s ∈ slugs →
        async_execute_query true env.userResp = Except.ok r →
        userVal (dataOf r) = some u →
        ∃ m, async_update_data env slugs =
          Except.error (CycleError.authFailed m)) ∧
    (∀ env : CycleEnv, ∀ body : Json,
        env.salesResp = HttpResponse.status 401 body →
        fetch_sales_data env = (0, 0, 0, 0, false)) ∧
    (∀ env : CycleEnv, ∀ body : Json,
        env.creationsResp = HttpResponse.status 401 body →
        fetch_creations_data env = ({}, {})) ∧
    (∀ m m2 : String,
        CycleError.authFailed m ≠ CycleError.updateFailed m2) := by
  refine ⟨?_, ?_, ?_, ?_, ?_, ?_, ?_⟩
  · intro b body
    exact ⟨rfl, rfl⟩
  · intro b code msg hcode
    rcases hcode with h | h <;> subst h <;> rfl
  · intro env slugs body h
    unfold async_update_data
    rw [h]
    rfl
  · intro env slugs s body r u hts hmem hq hu
    obtain ⟨m, hm⟩ := fetch_tracked_all_auth env s body hts slugs [] hmem
    refine ⟨m, ?_⟩
    unfold async_update_data
    rw [hq]
    dsimp only
    rw [hu]
    dsimp only
    rw [hm]
  · intro env body h
    unfold fetch_sales_data salesResults
    rw [h]
    rfl
  · intro env body h
    unfold fetch_creations_data
    rw [h]
    rfl
  · intro m m2 hcon
    cases hcon

/-- C2 amended witness: a 401 on the profile query fails the cycle with the
auth error, and a 401 on a tracked-item query does the same. -/
theorem auth_failure_classification_witness :
    envAuth401.userResp = HttpResponse.status 401 (Json.obj []) ∧
    async_update_data envAuth401 [] =
      Except.error (CycleError.authFailed "Invalid username or API key") ∧
    (∃ m, async_update_data envTracked401 ["widget-x"] =
      Except.error (CycleError.authFailed m)) := by
  refine ⟨rfl,
    auth_failure_classification.2.2.1 envAuth401 [] (Json.obj []) rfl, ?_⟩
  exact auth_failure_classification.2.2.2.1 envTracked401 ["widget-x"]
    "widget-x" (Json.obj []) userBodyFix
    (Json.obj [("nick", Json.str "alice"), ("followersCount", Json.num 7),
       ("followeesCount", Json.null), ("creationsCount", Json.num 3)])
    rfl (by simp) (by rfl) (by rfl)

theorem matchLong_slash {l g : List Char} (h : matchLong l = some g) :
    '/' ∈ l := by
  unfold matchLong at h
  cases h1 : dropLit hostChars l with
  | none => rw [h1] at h; cases h
  | some r1 => exact dropLit_pat_mem h1 '/' (by decide)

theorem matchShort_slash {l g : List Char} (h : matchShort l = some g) :
    '/' ∈ l := by
  unfold matchShort at h
  cases h1 : dropLit hostChars l with
  | none => rw [h1] at h; cases h
  | some r1 => exact dropLit_pat_mem h1 '/' (by decide)

theorem matchLong_chars {l g : List Char} (h : matchLong l = some g) :
    (∀ c ∈ g, slugChar c = true) ∧ (∀ c ∈ g, c ∈ l) := by
  unfold matchLong at h
  cases h1 : dropLit hostChars l with
  | none => rw [h1] at h; cases h
  | some r1 =>
      rw [h1] at h
      dsimp only at h
      by_cases hw : (r1.takeWhile isWordChar).isEmpty
      · rw [if_pos hw] at h; cases h
      · rw [if_neg hw] at h
        cases h2 : dropLit modelChars (r1.dropWhile isWordChar) with
        | none => rw [h2] at h; cases h
        | some r3 =>
            rw [h2] at h
            dsimp only at h
            by_cases ha : (r3.takeWhile notSlash).isEmpty
            · rw [if_pos ha] at h; cases h
            · rw [if_neg ha] at h
              cases hr4 : r3.dropWhile notSlash with
              | nil => rw [hr4] at h; cases h
              | cons c0 r5 =>
                  rw [hr4] at h
                  have h3 : (if c0 = '/' then
                      (if (r5.takeWhile slugChar).isEmpty then none
                        else some (r5.takeWhile slugChar))
                      else none) = some g := h
                  by_cases hc0 : c0 = '/'
                  · rw [if_pos hc0] at h3
                    by_cases hg : (r5.takeWhile slugChar).isEmpty
                    · rw [if_pos hg] at h3; cases h3
                    · rw [if_neg hg] at h3
                      injection h3 with hgeq
                      subst hgeq
                      constructor
                      · intro c hc
                        exact List.mem_takeWhile_imp hc
                      · intro c hc
                        have m5 : c ∈ r5 := mem_of_mem_takeWhile hc
                        have m4 : c ∈ r3.dropWhile notSlash := by
                          rw [hr4]
                          exact List.mem_cons_of_mem c0 m5
                        have m3 : c ∈ r3 := mem_of_mem_dropWhile m4
                        have m2 : c ∈ r1.dropWhile isWordChar :=
                          dropLit_rest_mem h2 c m3
                        have m1 : c ∈ r1 := mem_of_mem_dropWhile m2
                        exact dropLit_rest_mem h1 c m1
                  · rw [if_neg hc0] at h3; cases h3

theorem matchShort_chars {l g : List Char} (h : matchShort l = some g) :
    (∀ c ∈ g, slugChar c = true) ∧ (∀ c ∈ g, c ∈ l) := by
  unfold matchShort at h
  cases h1 : dropLit hostChars l with
  | none => rw [h1] at h; cases h
  | some r1 =>
      rw [h1] at h
      dsimp only at h
      by_cases hw : (r1.takeWhile isWordChar).isEmpty
      · rw [if_pos hw] at h; cases h
      · rw [if_neg hw] at h
        cases hr2 : r1.dropWhile isWordChar with
        | nil => rw [hr2] at h; cases h
        | cons c0 r3 =>
            rw [hr2] at h
            have h3 : (if c0 = '/' then
                (if ((r3.takeWhile slugChar).isEmpty ||
                    !(r3.dropWhile slugChar).isEmpty) then none
                  else some (r3.takeWhile slugChar))
                else none) = some g := h
            by_cases hc0 : c0 = '/'
            · rw [if_pos hc0] at h3
              by_cases hg : ((r3.takeWhile slugChar).isEmpty ||
                  !(r3.dropWhile slugChar).isEmpty)
              · rw [if_pos hg] at h3; cases h3
              · rw [if_neg hg] at h3
                injection h3 with hgeq
                subst hgeq
                constructor
                · intro c hc
                  exact List.mem_takeWhile_imp hc
                · intro c hc
                  have m3 : c ∈ r3 := mem_of_mem_takeWhile hc
                  have m2 : c ∈ r1.dropWhile isWordChar := by
                    rw [hr2]
                    exact List.mem_cons_of_mem c0 m3
                  have m1 : c ∈ r1 := mem_of_mem_dropWhile m2
                  exact dropLit_rest_mem h1 c m1
            · rw [if_neg hc0] at h3; cases h3

theorem reSearch_none_of_no_slash (f : List Char → Option (List Char))
    (hf : ∀ l2 g, f l2 = some g → '/' ∈ l2) :
    ∀ l : List Char, '/' ∉ l → reSearch f l = none := by
  intro l
  induction l with
  | nil =>
      intro _
      unfold reSearch
      cases hc : f [] with
      | none => rfl
      | some g => exact absurd (hf [] g hc) (by simp)
  | cons c rest ih =>
      intro hn
      unfold reSearch
      cases hc : f (c :: rest) with
      | some g => exact absurd (hf _ g hc) hn
      | none => exact ih (fun h2 => hn (List.mem_cons_of_mem c h2))

theorem reSearch_subset (f : List Char → Option (List Char)) :
    ∀ l g, reSearch f l = some g →
      ∃ l2, (∀ c ∈ l2, c ∈ l) ∧ f l2 = some g := by
  intro l
  induction l with
  | nil =>
      intro g h
      exact ⟨[], by simp, h⟩
  | cons c rest ih =>
      intro g h
      unfold reSearch at h
      cases hc : f (c :: rest) with
      | some g2 =>
          rw [hc] at h
          injection h with h2
          subst h2
          exact ⟨c :: rest, fun c2 hc2 => hc2, hc⟩
      | none =>
          rw [hc] at h
          obtain ⟨l2, hsub, hf2⟩ := ih g h
          exact ⟨l2, fun c2 hc2 => List.mem_cons_of_mem c (hsub c2 hc2), hf2⟩

theorem extract_eq_of_long {s : String} {g : List Char}
    (h : reSearch matchLong s.data = some g) :
    extract_slug_from_url s = ⟨g⟩ := by
  unfold extract_slug_from_url
  rw [h]

theorem extract_eq_of_short {s : String} {g : List Char}
    (h1 : reSearch matchLong s.data = none)
    (h2 : reSearch matchShort s.data = some g) :
    extract_slug_from_url s = ⟨g⟩ := by
  unfold extract_slug_from_url
  rw [h1, h2]

theorem extract_eq_strip {s : String}
    (h1 : reSearch matchLong s.data = none)
    (h2 : reSearch matchShort s.data = none) :
    extract_slug_from_url s = pyStrip s := by
  unfold extract_slug_from_url
  rw [h1, h2]

theorem dropWhile_all_neg {p : Char → Bool} {l : List Char}
    (h : ∀ c ∈ l, p c = false) : l.dropWhile p = l := by
  cases l with
  | nil => rfl
  | cons c cs =>
      unfold List.dropWhile
      rw [h c (List.mem_cons_self c cs)]

theorem pyStrip_of_no_ws {s : String} (h : ∀ c ∈ s.data, isPyWs c = false) :
    pyStrip s = s := by
  apply String.ext
  show pyStripList s.data = s.data
  unfold pyStripList
  rw [dropWhile_all_neg h,
    dropWhile_all_neg (fun c hc => h c (List.mem_reverse.mp hc)),
    List.reverse_reverse]

/-- C7 counterexample: a product URL whose slug segment carries a trailing
space extracts to a slug with that space, but extracting again strips it,
so extraction is not idempotent on every input. -/
theorem slug_idempotence_counterexample :
    extract_slug_from_url (extract_slug_from_url
        "https://cults3d.com/en/3d-model/gadget/abc ") ≠
      extract_slug_from_url "https://cults3d.com/en/3d-model/gadget/abc " := by
  decide

/-- C7 amended: slug extraction is a total function (every definition below
is total by construction), maps a plain slug to itself, and is idempotent on
every input containing no whitespace character; unrestricted idempotence
fails exactly when the extracted slug retains surrounding whitespace, which
a second extraction strips. -/
theorem slug_extract_idempotent_ws_free (x : String)
    (h : ∀ c ∈ x.data, isPyWs c = false) :
    extract_slug_from_url (extract_slug_from_url x) = extract_slug_from_url x ∧
    extract_slug_from_url "plain-slug" = "plain-slug" := by
  refine ⟨?_, by decide⟩
  have fixpoint : ∀ g : List Char, (∀ c ∈ g, slugChar c = true) →
      (∀ c ∈ g, c ∈ x.data) →
      extract_slug_from_url ⟨g⟩ = (⟨g⟩ : String) := by
    intro g hslug hsub
    have hnos : '/' ∉ g := by
      intro hmem
      have h2 := hslug '/' hmem
      simp [slugChar] at h2
    have hws : ∀ c ∈ (⟨g⟩ : String).data, isPyWs c = false :=
      fun c hc => h c (hsub c hc)
    have e1 : reSearch matchLong (⟨g⟩ : String).data = none :=
      reSearch_none_of_no_slash matchLong
        (fun l2 g2 h2 => matchLong_slash h2) g hnos
    have e2 : reSearch matchShort (⟨g⟩ : String).data = none :=
      reSearch_none_of_no_slash matchShort
        (fun l2 g2 h2 => matchShort_slash h2) g hnos
    rw [extract_eq_strip e1 e2]
    exact pyStrip_of_no_ws hws
  cases hm1 : reSearch matchLong x.data with
  | some g =>
      obtain ⟨l2, hsub2, hf2⟩ := reSearch_subset matchLong x.data g hm1
      have hchars := matchLong_chars hf2
      rw [extract_eq_of_long hm1]
      exact fixpoint g hchars.1 (fun c hc => hsub2 c (hchars.2 c hc))
  | none =>
      cases hm2 : reSearch matchShort x.data with
      | some g =>
          obtain ⟨l2, hsub2, hf2⟩ := reSearch_subset matchShort x.data g hm2
          have hchars := matchShort_chars hf2
          rw [extract_eq_of_short hm1 hm2]
          exact fixpoint g hchars.1 (fun c hc => hsub2 c (hchars.2 c hc))
      | none =>
          have hx : extract_slug_from_url x = x := by
            rw [extract_eq_strip hm1 hm2]
            exact pyStrip_of_no_ws h
          rw [hx]
          exact hx

/-- C7 amended witness: a whitespace-free product URL extracts to widget-x
and a second extraction leaves it unchanged. -/
theorem slug_extract_idempotent_ws_free_witness :
    (∀ c ∈ ("https://cults3d.com/en/3d-model/gadget/widget-x" : String).data,
      isPyWs c = false) ∧
    extract_slug_from_url (extract_slug_from_url
        "https://cults3d.com/en/3d-model/gadget/widget-x") =
      extract_slug_from_url
        "https://cults3d.com/en/3d-model/gadget/widget-x" := by
  refine ⟨by decide, (slug_extract_idempotent_ws_free
    "https://cults3d.com/en/3d-model/gadget/widget-x" (by decide)).1⟩

end Cults3D
